import Mathlib

/-!
Verification development for the motion-detection core of the
`streamserverclient` video surveillance server.

The definitions below are a shallow embedding of the `MotionDetector`
class of `streamserverclient.py`: the blob-admission test of the
detection loop, the overlay-rendering step (with an explicit heap to
reason about buffer aliasing), the detector's shared state and its
`start_detection` / `stop_detection` / `get_status` /
`get_processed_frame` operations, and the per-cycle write sequence of
the worker loop (to reason about which field updates happen under the
frame lock).

External library calls (OpenCV's background subtractor, morphology,
`findContours`, `resize`) are not code of this repository; the
embedding treats their outputs as inputs of each detection cycle (the
contour list) and abstracts their pixel-level content where no claim
depends on it.  The background subtractor's accumulated history is
tracked as the number of frames it has absorbed, which is what
"reset" versus "carried over" turns on.
-/

/-- A contour as delivered by `cv2.findContours` together with the
quantities the loop computes from it: `cv2.contourArea` (a float,
modelled as a rational) and `cv2.boundingRect` (x, y, width, height). -/
structure Contour where
  area : ℚ
  x : ℕ
  y : ℕ
  w : ℕ
  h : ℕ
deriving DecidableEq, Repr

/-- `self.min_contour_area = 1500` (line 34). -/
def min_contour_area : ℚ := 1500

/-- `self.max_contour_area = 50000` (line 35). -/
def max_contour_area : ℚ := 50000

/-- `aspect_ratio = h / w if w > 0 else 0` (line 104). -/
def aspect_ratio (w h : ℕ) : ℚ :=
  if 0 < w then (h : ℚ) / (w : ℚ) else 0

/-- The admission test of the contour loop (lines 99-109): the contour
is admitted as a motion box when `min_contour_area <= area <=
max_contour_area` and then `1.2 <= aspect_ratio <= 4.0`; the aspect
check is only reached when the area check passed. -/
def admitContour (c : Contour) : Bool :=
  if min_contour_area ≤ c.area ∧ c.area ≤ max_contour_area then
    if (6 / 5 : ℚ) ≤ aspect_ratio c.w c.h ∧ aspect_ratio c.w c.h ≤ 4 then
      true
    else
      false
  else
    false

/-- A motion box `(x, y, w, h, area)` as appended at line 109. -/
structure MotionBox where
  x : ℕ
  y : ℕ
  w : ℕ
  h : ℕ
  area : ℚ
deriving DecidableEq, Repr

/-- The box built from an admitted contour (line 109). -/
def boxOf (c : Contour) : MotionBox :=
  ⟨c.x, c.y, c.w, c.h, c.area⟩

/-- The contour loop of lines 99-109 as a whole: every contour passing
`admitContour` contributes its bounding box. -/
def extractBoxes (cs : List Contour) : List MotionBox :=
  cs.filterMap (fun c => if admitContour c then some (boxOf c) else none)

/-- Spec-side predicate: the pixel area lies in `[min_area, max_area]`. -/
def areaInRange (c : Contour) : Prop :=
  min_contour_area ≤ c.area ∧ c.area ≤ max_contour_area

/-- Spec-side predicate: the bounding box has positive width (a
zero-width box is rejected outright) and its aspect ratio
`height/width` lies in `[1.2, 4.0]`. -/
def aspectInRange (c : Contour) : Prop :=
  0 < c.w ∧ (6 / 5 : ℚ) ≤ (c.h : ℚ) / (c.w : ℚ) ∧ (c.h : ℚ) / (c.w : ℚ) ≤ 4

/-- One 8-bit BGR pixel. -/
abbrev Pix := ℕ × ℕ × ℕ

/-- A frame: a dense grid of pixels, row major. -/
abbrev Frame := List (List Pix)

/-- Functional update of one pixel (out-of-range coordinates leave the
frame unchanged, as `List.set` does). -/
def setPix (f : Frame) (x y : ℕ) (p : Pix) : Frame :=
  f.set y ((f.getD y []).set x p)

/-- Horizontal run of pixels, used by the drawing primitives. -/
def hLine (f : Frame) (x y len : ℕ) (c : Pix) : Frame :=
  (List.range len).foldl (fun g i => setPix g (x + i) y c) f

/-- Vertical run of pixels. -/
def vLine (f : Frame) (x y len : ℕ) (c : Pix) : Frame :=
  (List.range len).foldl (fun g j => setPix g x (y + j) c) f

/-- Models `cv2.rectangle` with a positive thickness (outline): the
four border runs, drawn as functional updates instead of in-place
mutation. -/
def drawRectOutline (f : Frame) (x y w h : ℕ) (c : Pix) : Frame :=
  vLine (vLine (hLine (hLine f x y w c) x (y + h) w c) x y h c) (x + w) y h c

/-- Models `cv2.rectangle` with thickness `-1` (filled). -/
def fillRect (f : Frame) (x y w h : ℕ) (c : Pix) : Frame :=
  (List.range h).foldl (fun g j => hLine g x (y + j) w c) f

/-- Models `cv2.putText`: glyph rasterisation is abstracted to marking
one pixel per character along the baseline; only which buffer is
written matters to the claims. -/
def putText (f : Frame) (s : String) (x y : ℕ) (c : Pix) : Frame :=
  hLine f x y s.length c

/-- Models `cv2.getTextSize` (width, height of the rendered label). -/
def getTextSize (s : String) : ℕ × ℕ :=
  (s.length, 1)

/-- The per-box drawing of lines 113-123: rectangle outline, filled
label background, then the `"Motion: <area>"` label text (with
`int(area)` as in line 118). -/
def drawBox (f : Frame) (b : MotionBox) : Frame :=
  let f1 := drawRectOutline f b.x b.y b.w b.h (0, 0, 255)
  let label := "Motion: " ++ toString b.area.floor
  let ls := getTextSize label
  let f2 := fillRect f1 b.x (b.y - ls.2 - 10) ls.1 (ls.2 + 10) (0, 0, 255)
  putText f2 label b.x (b.y - 5) (255, 255, 255)

/-- The status line of lines 126-129. -/
def drawStatus (f : Frame) (motionFound : Bool) : Frame :=
  putText f
    (if motionFound then "Motion Detection: ACTIVE" else "Motion Detection: MONITORING")
    10 30
    (if motionFound then (0, 0, 255) else (0, 255, 0))

/-- The timestamp line of lines 132-134 (drawn near the bottom of the
frame: `processed_frame.shape[0] - 10`). -/
def drawTimestamp (f : Frame) (ts : String) : Frame :=
  putText f ts 10 (f.length - 10) (255, 255, 255)

/-- The full overlay-rendering sequence of lines 113-134 as a pure
function on the frame value: all boxes, then status, then timestamp. -/
def renderFrame (frame : Frame) (boxes : List MotionBox) (motionFound : Bool)
    (ts : String) : Frame :=
  drawTimestamp (drawStatus (boxes.foldl drawBox frame) motionFound) ts

/-! ### A heap of frame buffers

Python's frames are heap objects referenced by name; `frame.copy()`
allocates a new buffer while plain assignment aliases.  To state the
no-mutation and defensive-copy claims we make the heap explicit: a
list of frames addressed by index. -/

/-- The frame heap. -/
abbrev Heap := List Frame

/-- A reference into the heap. -/
abbrev Ref := ℕ

/-- Dereference (a dangling reference reads as the empty frame). -/
def load (h : Heap) (r : Ref) : Frame :=
  (h[r]?).getD []

/-- Overwrite the buffer a reference points to (in-place mutation). -/
def store (h : Heap) (r : Ref) (f : Frame) : Heap :=
  h.set r f

/-- Allocate a fresh buffer holding `f`; returns the new heap and the
fresh reference. -/
def alloc (h : Heap) (f : Frame) : Heap × Ref :=
  (h ++ [f], h.length)

/-- The rendering section of the cycle on the heap, lines 92-134:
`processed_frame = frame.copy()` allocates a fresh buffer (line 93),
then every `cv2.rectangle`/`cv2.putText` call mutates that buffer in
place.  Returns the heap after the calls and the reference to the
processed frame. -/
def renderOnHeap (h : Heap) (frameRef : Ref) (boxes : List MotionBox)
    (motionFound : Bool) (ts : String) : Heap × Ref :=
  let h1 := (alloc h (load h frameRef)).1
  let p := (alloc h (load h frameRef)).2
  let h2 := boxes.foldl (fun hh b => store hh p (drawBox (load hh p) b)) h1
  let h3 := store h2 p (drawStatus (load h2 p) motionFound)
  let h4 := store h3 p (drawTimestamp (load h3 p) ts)
  (h4, p)

/-- The detector's shared frame slots, as references into the heap
(`self.current_frame`, `self.processed_frame`, lines 29-30). -/
structure SharedRefs where
  current : Option Ref
  processed : Option Ref
deriving DecidableEq, Repr

/-- `get_processed_frame` (lines 159-166): under the frame lock,
return a copy of the processed frame if present, else a copy of the
current frame if present, else nothing.  The `.copy()` calls allocate
fresh buffers. -/
def get_processed_frame (h : Heap) (s : SharedRefs) : Heap × Option Ref :=
  match s.processed with
  | some r => ((alloc h (load h r)).1, some (alloc h (load h r)).2)
  | none =>
    match s.current with
    | some r => ((alloc h (load h r)).1, some (alloc h (load h r)).2)
    | none => (h, none)

/-! ### The detector's state and operations -/

/-- The `MotionDetector` instance state (lines 20-36), restricted to
the fields the claims are about.  `bgFrames` tracks the background
subtractor's accumulated history as the number of frames it has
absorbed: `cv2.createBackgroundSubtractorMOG2` in `__init__` (line 24)
starts it at 0, and each `apply` call (line 82) adds one.
`hasThread` records whether a worker thread is currently running.
Frames are held by value here; the heap model above covers the
aliasing claims. -/
structure MD where
  is_active : Bool
  running : Bool
  hasThread : Bool
  motion_detected : Bool
  last_motion_time : Option ℕ
  current_frame : Option Frame
  processed_frame : Option Frame
  bgFrames : ℕ
deriving Repr

/-- `__init__` (lines 20-36): inactive, no thread, no motion seen, no
frames, fresh background model. -/
def initMD : MD :=
  ⟨false, false, false, false, none, none, none, 0⟩

/-- `start_detection` (lines 38-45): if not active, set `is_active`
and `running` and launch the worker thread.  The background subtractor
is not touched. -/
def start_detection (s : MD) : MD :=
  if s.is_active then s
  else { s with is_active := true, running := true, hasThread := true }

/-- The `timeout=2` argument of `self.detection_thread.join(timeout=2)`
at line 52: the bounded wait of `stop_detection`, in seconds. -/
def joinTimeoutSeconds : ℕ := 2

/-- `stop_detection` (lines 47-53): clear `is_active` and `running`,
then join the worker with the bounded timeout.  No other field is
written; in particular `last_motion_time` and the background model
survive. -/
def stop_detection (s : MD) : MD :=
  { s with is_active := false, running := false }

/-- The status record returned by `get_status` (lines 151-157). -/
structure StatusSnapshot where
  active : Bool
  motion_detected : Bool
  last_motion : Option ℕ
deriving DecidableEq, Repr

/-- `get_status` (lines 151-157): a plain read of the three scalar
fields. -/
def get_status (s : MD) : StatusSnapshot :=
  ⟨s.is_active, s.motion_detected, s.last_motion_time⟩

/-- Models `cv2.resize(frame, (640, 480))` (line 75); the geometric
resampling is external library code no claim depends on. -/
def resize (f : Frame) : Frame :=
  f

/-- One iteration's input to the worker loop.  `ok` carries the frame
`cap.read()` delivered together with the contour list the external
OpenCV calls (background subtraction, morphology, `findContours`,
lines 82-90) produce from it; `noFrame` is the `ret == False` branch
(lines 69-72); `exc` is a cycle in which the overlay rendering
(lines 113-134) raises. -/
inductive CycleInput where
  | ok (frame : Frame) (contours : List Contour) (now : ℕ)
  | noFrame
  | exc (frame : Frame) (contours : List Contour) (now : ℕ)
deriving Repr

/-- One complete successful cycle of the worker loop (lines 67-143),
in source order: store the resized frame as `current_frame` (78-79),
feed the background subtractor (82), extract the admitted boxes
(99-109) setting `last_motion_time` when one is admitted (110), render
the overlays (113-134), store `processed_frame` (137-138), then set
`motion_detected` (140). -/
def runCycle (s : MD) (frame : Frame) (contours : List Contour) (now : ℕ) : MD :=
  let fr := resize frame
  let s1 := { s with current_frame := some fr, bgFrames := s.bgFrames + 1 }
  let boxes := extractBoxes contours
  let found := !boxes.isEmpty
  let s2 := { s1 with
    last_motion_time := if found then some now else s1.last_motion_time }
  let annotated := renderFrame fr boxes found (toString now)
  { s2 with processed_frame := some annotated, motion_detected := found }

/-- A cycle interrupted by an exception during overlay rendering: the
writes that precede the rendering (lines 78-110) have happened —
`current_frame`, the background-model update, and possibly
`last_motion_time` — but `processed_frame` and `motion_detected`
(lines 137-140) have not. -/
def excState (s : MD) (frame : Frame) (contours : List Contour) (now : ℕ) : MD :=
  let fr := resize frame
  let s1 := { s with current_frame := some fr, bgFrames := s.bgFrames + 1 }
  let boxes := extractBoxes contours
  let found := !boxes.isEmpty
  { s1 with last_motion_time := if found then some now else s1.last_motion_time }

/-- The worker thread returning: the loop function ends. -/
def threadExit (s : MD) : MD :=
  { s with hasThread := false }

/-- Outcome of `_detection_loop`: the detector state when the thread
returns, and whether `cap.release()` ran (the `finally` block,
lines 147-149). -/
structure LoopResult where
  final : MD
  released : Bool
deriving Repr

/-- The `while self.running and self.is_active` body (lines 67-143)
inside the `try` (line 58): each iteration first re-checks the flags;
a rendering exception escapes the `while` into the `except` handler
(145-146), which logs and falls through to `finally` — the loop does
not continue. -/
def loopGo (s : MD) (inputs : List CycleInput) : LoopResult :=
  match inputs with
  | [] => ⟨threadExit s, true⟩
  | i :: rest =>
    if s.running && s.is_active then
      match i with
      | .noFrame => loopGo s rest
      | .ok f cs now => loopGo (runCycle s f cs now) rest
      | .exc f cs now => ⟨threadExit (excState s f cs now), true⟩
    else
      ⟨threadExit s, true⟩

/-- `_detection_loop` (lines 55-149): open the capture; when
`cap.isOpened()` is false, log and return (lines 61-63) — no flag is
cleared — with the `finally` block still releasing the capture
object.  Otherwise run the cycle loop. -/
def detection_loop (s : MD) (openOk : Bool) (inputs : List CycleInput) : LoopResult :=
  if openOk then loopGo s inputs else ⟨threadExit s, true⟩

/-- An external operation on the detector, for stating invariants over
arbitrary operation sequences.  `loop` is one full run of the worker
thread launched by `start_detection`; `get_status` and
`get_processed_frame` do not write this state. -/
inductive MDOp where
  | start
  | stop
  | loop (openOk : Bool) (inputs : List CycleInput)
deriving Repr

/-- Effect of one operation on the detector state. -/
def stepOp (s : MD) : MDOp → MD
  | .start => start_detection s
  | .stop => stop_detection s
  | .loop ok ins => (detection_loop s ok ins).final

/-- Effect of a sequence of operations. -/
def runOps (s : MD) (ops : List MDOp) : MD :=
  ops.foldl stepOp s

/-! ### The per-cycle shared-state write sequence

For the atomicity claim the relevant granularity is which writes
happen under `self.frame_lock` and in what order.  Per cycle the
worker performs, in order: the lock-guarded `current_frame` write
(lines 78-79), the unguarded `last_motion_time` write (line 110, only
when motion was found), the lock-guarded `processed_frame` write
(lines 137-138), and the unguarded `motion_detected` write (line 140).
Frames are tagged with their cycle number so an observation can tell
which cycle produced each field. -/

/-- The cross-thread shared fields, frames tagged by cycle number. -/
structure Shared where
  current : Option ℕ
  processed : Option ℕ
  motion : Bool
  lastT : Option ℕ
deriving DecidableEq, Repr

/-- State before the first cycle (from `__init__`). -/
def initShared : Shared :=
  ⟨none, none, false, none⟩

/-- One atomic access to the shared state: each constructor is either
one lock-guarded critical section or one unguarded single-field
write; between any two of them the lock is free and a reader may
observe the state. -/
inductive WAct where
  | writeCurrent (k : ℕ)
  | writeLast (now : ℕ)
  | writeProcessed (k : ℕ)
  | writeMotion (b : Bool)
deriving DecidableEq, Repr

/-- Effect of one atomic access. -/
def applyAct (s : Shared) : WAct → Shared
  | .writeCurrent k => { s with current := some k }
  | .writeLast now => { s with lastT := some now }
  | .writeProcessed k => { s with processed := some k }
  | .writeMotion b => { s with motion := b }

/-- The write sequence cycle `k` performs on the shared state, in
source order. -/
def cycleActs (k : ℕ) (found : Bool) (now : ℕ) : List WAct :=
  [WAct.writeCurrent k]
    ++ (if found then [WAct.writeLast now] else [])
    ++ [WAct.writeProcessed k, WAct.writeMotion found]

/-- Run a list of atomic accesses. -/
def runActs (s : Shared) (as : List WAct) : Shared :=
  as.foldl applyAct s

/-- The shared state a reader observes after cycle 1 has completed and
cycle 2 has performed only its first lock-guarded write. -/
def mixedState : Shared :=
  runActs initShared (cycleActs 1 true 10 ++ [WAct.writeCurrent 2])

/-- Ordering discipline that does hold: whenever a processed frame is
visible, a raw frame at least as new is visible with it (the raw-frame
write of a cycle precedes its processed-frame write). -/
def OrderInv (s : Shared) : Prop :=
  ∀ p, s.processed = some p → ∃ c, s.current = some c ∧ p ≤ c

/-- A contour the admission test accepts: area 2000, bounding box
10×20 (aspect ratio 2).  Used as the already-admissible input of the
cycle that would follow a failing one. -/
def personContour : Contour :=
  ⟨2000, 0, 0, 10, 20⟩

/-! ### Theorems -/

/-- C1: a contour of the cleaned foreground mask is admitted as a
motion box if and only if both its pixel area lies in
`[min_contour_area, max_contour_area]` (1500 and 50000) and its
bounding-box aspect ratio `height/width` lies in `[1.2, 4.0]`; the
two-sided iff entails that a contour failing either test is excluded
regardless of the other. -/
theorem blob_admission_iff (c : Contour) :
    admitContour c = true ↔ areaInRange c ∧ aspectInRange c := by
  unfold admitContour areaInRange aspectInRange aspect_ratio
  by_cases hw : 0 < c.w
  · simp only [if_pos hw]
    split_ifs with hA hAsp
    · exact iff_of_true rfl ⟨hA, hw, hAsp.1, hAsp.2⟩
    · exact iff_of_false (by simp) (fun hr => hAsp ⟨hr.2.2.1, hr.2.2.2⟩)
    · exact iff_of_false (by simp) (fun hr => hA hr.1)
  · simp only [if_neg hw]
    split_ifs with hA hAsp
    · exfalso
      have h0 : (6 / 5 : ℚ) ≤ 0 := hAsp.1
      norm_num at h0
    · exact iff_of_false (by simp) (fun hr => hw hr.2.1)
    · exact iff_of_false (by simp) (fun hr => hA hr.1)

/-- C5: a contour whose bounding box has zero width is evaluated
without a division (the `w > 0` guard of line 104 yields aspect ratio
0) and is excluded. -/
theorem zero_width_excluded (c : Contour) (h : c.w = 0) :
    admitContour c = false := by
  unfold admitContour aspect_ratio
  rw [h]
  norm_num

/-- Witness for `zero_width_excluded` at a concrete zero-width
contour. -/
theorem zero_width_excluded_witness :
    (⟨2000, 5, 5, 0, 10⟩ : Contour).w = 0 ∧
      admitContour ⟨2000, 5, 5, 0, 10⟩ = false :=
  ⟨rfl, zero_width_excluded ⟨2000, 5, 5, 0, 10⟩ rfl⟩

/-- Reading an existing buffer is unchanged by an allocation. -/
theorem load_alloc_of_lt (h : Heap) (f : Frame) (r : Ref) (hr : r < h.length) :
    load (h ++ [f]) r = load h r := by
  simp [load, List.getElem?_append_left hr]

/-- Reading the freshly allocated buffer yields its contents. -/
theorem load_alloc_self (h : Heap) (f : Frame) :
    load (h ++ [f]) h.length = f := by
  simp [load, List.getElem?_concat_length]

/-- Reading a buffer other than the stored one is unchanged. -/
theorem load_store_of_ne (h : Heap) (p r : Ref) (f : Frame) (hne : p ≠ r) :
    load (store h p f) r = load h r := by
  simp [load, store, List.getElem?_set_ne hne]

/-- The per-box drawing loop writes only the processed buffer. -/
theorem load_drawFold_of_ne (p r : Ref) (hne : p ≠ r) :
    ∀ (boxes : List MotionBox) (h : Heap),
      load (boxes.foldl (fun hh b => store hh p (drawBox (load hh p) b)) h) r
        = load h r := by
  intro boxes
  induction boxes with
  | nil => intro h; rfl
  | cons b bs ih =>
    intro h
    rw [List.foldl_cons, ih, load_store_of_ne _ _ _ _ hne]

/-- C6: the overlay-rendering step never mutates the input frame: all
rectangles, labels, the status line and the timestamp line are drawn
on the buffer freshly allocated by `frame.copy()` (line 93), so the
input buffer reads the same after the call, and the returned processed
reference is not an alias of the input reference. -/
theorem render_no_mutation (h : Heap) (r : Ref) (boxes : List MotionBox)
    (mf : Bool) (ts : String) (hr : r < h.length) :
    load (renderOnHeap h r boxes mf ts).1 r = load h r ∧
      (renderOnHeap h r boxes mf ts).2 ≠ r := by
  have hne : h.length ≠ r := Nat.ne_of_gt hr
  constructor
  · simp only [renderOnHeap, alloc]
    rw [load_store_of_ne _ _ _ _ hne, load_store_of_ne _ _ _ _ hne,
      load_drawFold_of_ne _ _ hne, load_alloc_of_lt _ _ _ hr]
  · simpa only [renderOnHeap, alloc] using hne

/-- Witness for `render_no_mutation` on a concrete one-frame heap. -/
theorem render_no_mutation_witness :
    (0 : Ref) < ([[[(0, 0, 0)]]] : Heap).length ∧
      (load (renderOnHeap [[[(0, 0, 0)]]] 0 [] false "t").1 0
          = load [[[(0, 0, 0)]]] 0 ∧
        (renderOnHeap [[[(0, 0, 0)]]] 0 [] false "t").2 ≠ 0) :=
  ⟨by decide, render_no_mutation [[[(0, 0, 0)]]] 0 [] false "t" (by decide)⟩

/-- C7: `get_processed_frame` returns a copy of the latest processed
frame when one exists, else a copy of the latest raw frame when one
exists, else nothing; the returned reference is fresh — an alias of
neither internal slot — and the function is a plain total read (it
never waits on the worker loop). -/
theorem get_processed_frame_spec (h : Heap) (s : SharedRefs)
    (hp : ∀ r, s.processed = some r → r < h.length)
    (hc : ∀ r, s.current = some r → r < h.length) :
    (∀ r, s.processed = some r →
      ∃ r', (get_processed_frame h s).2 = some r' ∧
        load (get_processed_frame h s).1 r' = load h r ∧
        r' ≠ r ∧ (∀ rc, s.current = some rc → r' ≠ rc)) ∧
    (s.processed = none → ∀ r, s.current = some r →
      ∃ r', (get_processed_frame h s).2 = some r' ∧
        load (get_processed_frame h s).1 r' = load h r ∧ r' ≠ r) ∧
    (s.processed = none → s.current = none →
      (get_processed_frame h s).2 = none ∧ (get_processed_frame h s).1 = h) := by
  refine ⟨?_, ?_, ?_⟩
  · intro r hr
    have hlt := hp r hr
    refine ⟨h.length, ?_, ?_, Nat.ne_of_gt hlt, ?_⟩
    · simp [get_processed_frame, hr, alloc]
    · simp only [get_processed_frame, hr, alloc]
      exact load_alloc_self h (load h r)
    · intro rc hrc
      exact Nat.ne_of_gt (hc rc hrc)
  · intro hpn r hr
    have hlt := hc r hr
    refine ⟨h.length, ?_, ?_, Nat.ne_of_gt hlt⟩
    · simp [get_processed_frame, hpn, hr, alloc]
    · simp only [get_processed_frame, hpn, hr, alloc]
      exact load_alloc_self h (load h r)
  · intro hpn hcn
    simp [get_processed_frame, hpn, hcn]

/-- C2 counterexample: `start_detection` followed by a worker whose
capture fails to open leaves `is_active` set — `get_status().active`
is `true`, not `false` as the claim requires; the loop's early
`return` (line 63) clears no flag and nothing is surfaced to the
caller. -/
theorem failed_open_active_counterexample :
    (get_status (detection_loop (start_detection initMD) false []).final).active
      = true :=
  rfl

/-- C2 amended: when `start()` is called on an idle detector and the
frame source fails to open, the worker thread exits and the capture
object is released, but the detector does not revert to idle —
`get_status().active` remains `true` until an explicit stop, and the
failure is only logged inside the worker, never surfaced to the
caller of `start_detection`. -/
theorem failed_open_behavior (s : MD) (inputs : List CycleInput)
    (hs : s.is_active = false) :
    (get_status (detection_loop (start_detection s) false inputs).final).active
        = true ∧
      (detection_loop (start_detection s) false inputs).final.hasThread = false ∧
      (detection_loop (start_detection s) false inputs).released = true := by
  simp [start_detection, hs, detection_loop, threadExit, get_status]

/-- Witness for `failed_open_behavior` on the freshly constructed
detector. -/
theorem failed_open_behavior_witness :
    initMD.is_active = false ∧
      ((get_status (detection_loop (start_detection initMD) false []).final).active
          = true ∧
        (detection_loop (start_detection initMD) false []).final.hasThread = false ∧
        (detection_loop (start_detection initMD) false []).released = true) :=
  ⟨rfl, failed_open_behavior initMD [] rfl⟩

/-- C3 counterexample: after cycle 1 has completed and cycle 2 has
performed only its first lock-guarded write (the `current_frame`
store of lines 78-79), the lock is free and a concurrent reader
observes the raw frame of cycle 2 together with the processed frame,
motion flag and motion time of cycle 1 — a mixture of two different
cycles, so the four fields are not updated as one atomic unit. -/
theorem torn_read_counterexample :
    mixedState.current = some 2 ∧ mixedState.processed = some 1 ∧
      mixedState.motion = true ∧ mixedState.lastT = some 10 := by
  decide

/-- C3 amended: each individual field write happens under the lock (or
as a single attribute store), and within a cycle the `current_frame`
write precedes the `processed_frame` write, so a concurrent reader can
pair a newer raw frame with an older processed frame but never the
reverse: at every interleaving point inside a cycle, a visible
processed frame is never newer than the visible raw frame. -/
theorem cycle_writes_ordered (s : Shared) (k now i : ℕ) (found : Bool)
    (h1 : OrderInv s) (h2 : ∀ c, s.current = some c → c ≤ k) :
    OrderInv (runActs s ((cycleActs k found now).take i)) := by
  have hcur : ∀ p, s.processed = some p → p ≤ k := by
    intro p hp
    obtain ⟨c, hc, hpc⟩ := h1 p hp
    exact le_trans hpc (h2 c hc)
  cases found
  case false =>
    rcases i with _ | _ | _ | i
    · simpa [cycleActs, runActs] using h1
    · intro p hp
      simp [cycleActs, runActs, applyAct] at hp ⊢
      exact hcur p hp
    · intro p hp
      simp [cycleActs, runActs, applyAct] at hp ⊢
      omega
    · intro p hp
      simp [cycleActs, runActs, applyAct, List.take_succ_cons] at hp ⊢
      omega
  case true =>
    rcases i with _ | _ | _ | _ | i
    · simpa [cycleActs, runActs] using h1
    · intro p hp
      simp [cycleActs, runActs, applyAct] at hp ⊢
      exact hcur p hp
    · intro p hp
      simp [cycleActs, runActs, applyAct] at hp ⊢
      exact hcur p hp
    · intro p hp
      simp [cycleActs, runActs, applyAct] at hp ⊢
      omega
    · intro p hp
      simp [cycleActs, runActs, applyAct, List.take_succ_cons] at hp ⊢
      omega

/-- Witness for `cycle_writes_ordered`: cycle 2 entered after a
completed cycle 1, stopped after its raw-frame write. -/
theorem cycle_writes_ordered_witness :
    OrderInv (runActs ⟨some 1, some 1, true, some 10⟩
      ((cycleActs 2 true 20).take 1)) :=
  cycle_writes_ordered ⟨some 1, some 1, true, some 10⟩ 2 20 1 true
    (fun p hp => by
      injection hp with hh
      cases hh
      exact ⟨1, rfl, le_refl 1⟩)
    (fun c hc => by
      injection hc with hh
      cases hh
      decide)

/-- C4 counterexample: a cycle whose overlay rendering raises ends the
worker loop — the run on `[exc, ok …]` equals the run on `[exc]`
alone, so the following cycle (which, run by itself, would set
`motion_detected`) is never processed, contradicting "the loop
continues to the next cycle". -/
theorem render_failure_counterexample :
    detection_loop (start_detection initMD) true
        [CycleInput.exc [] [] 0, CycleInput.ok [] [personContour] 7]
      = detection_loop (start_detection initMD) true [CycleInput.exc [] [] 0] ∧
    (detection_loop (start_detection initMD) true
        [CycleInput.exc [] [] 0, CycleInput.ok [] [personContour] 7]).final.motion_detected
      = false ∧
    (detection_loop (start_detection initMD) true
        [CycleInput.ok [] [personContour] 7]).final.motion_detected = true := by
  refine ⟨rfl, rfl, ?_⟩
  have hadmit : admitContour personContour = true := by
    norm_num [admitContour, aspect_ratio, min_contour_area, max_contour_area,
      personContour]
  simp [detection_loop, loopGo, runCycle, extractBoxes, hadmit, start_detection,
    initMD, threadExit]

/-- C4 amended: any exception raised inside the per-cycle analysis
pipeline terminates the worker loop: the loop-level handler
(lines 145-146) logs it, the `finally` block releases the frame
source, and the thread exits without processing any further cycle;
there is no per-cycle fallback — `processed_frame` and
`motion_detected` keep the previous cycle's values (the raw
`current_frame` of the failing cycle, stored before the pipeline ran,
may already be visible). -/
theorem render_failure_behavior (s : MD) (f : Frame) (cs : List Contour)
    (now : ℕ) (rest : List CycleInput)
    (hrun : s.running = true) (hact : s.is_active = true) :
    detection_loop s true (CycleInput.exc f cs now :: rest)
        = ⟨threadExit (excState s f cs now), true⟩ ∧
      (excState s f cs now).processed_frame = s.processed_frame ∧
      (excState s f cs now).motion_detected = s.motion_detected := by
  refine ⟨?_, rfl, rfl⟩
  simp [detection_loop, loopGo, hrun, hact]

/-- Witness for `render_failure_behavior` on a just-started
detector. -/
theorem render_failure_behavior_witness :
    (start_detection initMD).running = true ∧
      (start_detection initMD).is_active = true ∧
      (detection_loop (start_detection initMD) true [CycleInput.exc [] [] 0]
          = ⟨threadExit (excState (start_detection initMD) [] [] 0), true⟩ ∧
        (excState (start_detection initMD) [] [] 0).processed_frame
          = (start_detection initMD).processed_frame ∧
        (excState (start_detection initMD) [] [] 0).motion_detected
          = (start_detection initMD).motion_detected) :=
  ⟨rfl, rfl, render_failure_behavior (start_detection initMD) [] [] 0 [] rfl rfl⟩

/-- The `finally` block runs on every loop exit: `released` is true on
every path of the loop body. -/
theorem loopGo_released (ins : List CycleInput) :
    ∀ s : MD, (loopGo s ins).released = true := by
  induction ins with
  | nil => intro s; rfl
  | cons i rest ih =>
    intro s
    by_cases hg : (s.running && s.is_active) = true
    · cases i with
      | ok f cs now => simp only [loopGo, hg, if_true]; exact ih _
      | noFrame => simp only [loopGo, hg, if_true]; exact ih _
      | exc f cs now => simp [loopGo, hg]
    · simp [loopGo, hg]

/-- C8: `stop_detection` clears the active and running flags (the
detector reads as idle afterwards), waits on the worker for the
bounded `join(timeout=2)`, and the frame source is released on every
termination path of the worker loop — normal exit, failed open, and
exception-driven exit alike. -/
theorem stop_and_release (s : MD) :
    (get_status (stop_detection s)).active = false ∧
      (stop_detection s).running = false ∧
      joinTimeoutSeconds = 2 ∧
      ∀ (s' : MD) (ok : Bool) (ins : List CycleInput),
        (detection_loop s' ok ins).released = true := by
  refine ⟨rfl, rfl, rfl, ?_⟩
  intro s' ok ins
  cases ok
  · rfl
  · simpa [detection_loop] using loopGo_released ins s'

/-- C9 counterexample: after one detection cycle, a stop and a
restart, the background subtractor still carries one absorbed frame —
it is not reset to the history-free state (`initMD.bgFrames = 0`) the
claim requires, because `cv2.createBackgroundSubtractorMOG2` runs only
in `__init__` (line 24) and `start_detection` never recreates it. -/
theorem background_reset_counterexample :
    (start_detection (stop_detection
        (detection_loop (start_detection initMD) true
          [CycleInput.ok [] [] 0]).final)).bgFrames = 1 ∧
      initMD.bgFrames = 0 :=
  ⟨rfl, rfl⟩

/-- C9 amended: the background model is created once per
`MotionDetector` and persists across stop/start — restarting
detection leaves its accumulated history exactly as it was. -/
theorem background_persists (s : MD) :
    (start_detection (stop_detection s)).bgFrames = s.bgFrames :=
  rfl

/-- A successful cycle never clears `last_motion_time`. -/
theorem runCycle_last_isSome (s : MD) (f : Frame) (cs : List Contour) (now : ℕ)
    (h : s.last_motion_time.isSome = true) :
    ((runCycle s f cs now).last_motion_time).isSome = true := by
  simp only [runCycle]
  rcases hb : !(extractBoxes cs).isEmpty <;> simp [hb, h]

/-- An exception-interrupted cycle never clears `last_motion_time`. -/
theorem excState_last_isSome (s : MD) (f : Frame) (cs : List Contour) (now : ℕ)
    (h : s.last_motion_time.isSome = true) :
    ((excState s f cs now).last_motion_time).isSome = true := by
  simp only [excState]
  rcases hb : !(extractBoxes cs).isEmpty <;> simp [hb, h]

/-- The worker loop never clears `last_motion_time`. -/
theorem loopGo_last_isSome (ins : List CycleInput) :
    ∀ s : MD, s.last_motion_time.isSome = true →
      ((loopGo s ins).final.last_motion_time).isSome = true := by
  induction ins with
  | nil => intro s h; exact h
  | cons i rest ih =>
    intro s h
    by_cases hg : (s.running && s.is_active) = true
    · cases i with
      | ok f cs now =>
        simp only [loopGo, hg, if_true]
        exact ih _ (runCycle_last_isSome s f cs now h)
      | noFrame =>
        simp only [loopGo, hg, if_true]
        exact ih _ h
      | exc f cs now =>
        simp only [loopGo, hg, if_true]
        exact excState_last_isSome s f cs now h
    · simp only [loopGo, hg, if_false, Bool.false_eq_true]
      exact h

/-- C10: once any cycle has set `last_motion_time`, no operation of
the detector — stop, restart, or any further run of the worker loop —
ever clears it back to the unset state: `get_status` keeps reporting a
motion timestamp. -/
theorem last_motion_monotone (ops : List MDOp) :
    ∀ s : MD, s.last_motion_time.isSome = true →
      ((get_status (runOps s ops)).last_motion).isSome = true := by
  induction ops with
  | nil => intro s h; exact h
  | cons o rest ih =>
    intro s h
    refine ih (stepOp s o) ?_
    cases o with
    | start =>
      by_cases ha : s.is_active = true <;>
        simp [stepOp, start_detection, ha, h]
    | stop => exact h
    | loop ok ins =>
      cases ok
      · exact h
      · simpa [stepOp, detection_loop] using loopGo_last_isSome ins s h

/-- Witness for `last_motion_monotone`: a detector with a recorded
motion time survives a stop/start cycle with the timestamp intact. -/
theorem last_motion_monotone_witness :
    ({ initMD with last_motion_time := some 3 } : MD).last_motion_time.isSome
        = true ∧
      ((get_status (runOps { initMD with last_motion_time := some 3 }
        [MDOp.stop, MDOp.start])).last_motion).isSome = true :=
  ⟨rfl, last_motion_monotone [MDOp.stop, MDOp.start] _ rfl⟩

/-- Witness for `get_processed_frame_spec`: a heap holding one
processed frame. -/
theorem get_processed_frame_spec_witness :
    ∃ r', (get_processed_frame [[[(1, 1, 1)]]] ⟨none, some 0⟩).2 = some r' ∧
      load (get_processed_frame [[[(1, 1, 1)]]] ⟨none, some 0⟩).1 r'
        = load [[[(1, 1, 1)]]] 0 ∧
      r' ≠ 0 ∧
      (∀ rc, (⟨none, some 0⟩ : SharedRefs).current = some rc → r' ≠ rc) :=
  (get_processed_frame_spec [[[(1, 1, 1)]]] ⟨none, some 0⟩
    (fun r hr => by injection hr with h2; cases h2; decide)
    (fun r hr => Option.noConfusion hr)).1 0 rfl
